import Mathlib

/-!
Verification development for the scs_feedback repository.

The repository is a Slack feedback bot: `feedback/models.py` declares the
relational data model (User, Request, Feedback) and
`feedback/platforms/slack/services.py` implements the platform adapter
(`SlackService`): outbound UI construction (`give_feedback`, `ask_feedback`,
`send_feedback`) and inbound dispatch (`handle_interaction`,
`handle_request_feedback`, `handle_give_feedback`), plus the OAuth
registration path (`register_team`).

This file is a shallow embedding of that code.  Stateful Django ORM access is
modelled as explicit state passing over a `Store` record; Python exceptions
(`KeyError`, `ValueError` from `int()`, ORM `DoesNotExist`/NotFound,
`NotImplementedError`) are modelled by an `Except Err` result; outbound
Slack Web API calls (`views_open`, `chat_postMessage`) and `logger.error`
calls are recorded as a trace of `Eff` values.

Two source files referenced by `services.py` are not part of the sources:
`feedback/services.py` (class `FeedbackService`) and
`feedback/platforms/slack/models.py` (model `Team`).  Their operations are
modelled from the specification text and from Django `get_or_create` / `get`
semantics; each such definition carries a doc comment starting with
"Modelled from the spec:".
-/

namespace Scs

/-- `feedback.models.User`: `team_id` and `user_id` are opaque
platform-assigned strings; `uid` models the implicit Django primary key. -/
structure User where
  uid : Nat
  team_id : String
  user_id : String
deriving Repr, DecidableEq

/-- `feedback.models.Request`: one feedback solicitation. `sender` is a
ForeignKey to User, `recipients` a ManyToManyField; `rid` models the
implicit primary key.  (The `created_at` timestamp is irrelevant to the
claims and omitted.) -/
structure Request where
  rid : Nat
  sender : User
  recipients : List User
deriving Repr, DecidableEq

/-- `feedback.models.Feedback`: one feedback submission.  `request` is
nullable (`blank=True, null=True`). -/
structure Feedback where
  fid : Nat
  author : User
  recipient : User
  request : Option Request
  start_doing : String
  continue_doing : String
  stop_doing : String
deriving Repr, DecidableEq

/-- Modelled from the spec: `feedback/platforms/slack/models.py` is not among
the sources; per the spec a Team record is keyed by platform-assigned team id
and stores name and bot token. -/
structure Team where
  id : String
  name : String
  bot_token : String
deriving Repr, DecidableEq

/-- The relational store backing the domain service: the three tables of
`feedback/models.py` plus auto-increment counters for the implicit primary
keys. -/
structure Store where
  users : List User
  requests : List Request
  feedbacks : List Feedback
  nextUserId : Nat
  nextRequestId : Nat
  nextFeedbackId : Nat
deriving Repr, DecidableEq

def emptyStore : Store :=
  { users := [], requests := [], feedbacks := [],
    nextUserId := 0, nextRequestId := 0, nextFeedbackId := 0 }

/-- Python exceptions that the adapter code can raise. -/
inductive Err where
  /-- Python `KeyError` from a dict access. -/
  | keyError
  /-- Python `ValueError` from `int()` on a non-numeric string. -/
  | valueError
  /-- Domain-service NotFound (spec section 4.1: `get_user` and
  `get_request` fail with NotFound if absent). -/
  | notFound
  /-- `Team.DoesNotExist` from `Team.objects.get` in `_get_client`. -/
  | teamNotFound
  /-- `NotImplementedError` raised by `register_team` on a failed
  OAuth exchange. -/
  | notImplemented
deriving Repr, DecidableEq

/-! ## Submission values (`payload["view"]["state"]["values"]`)

In Slack, `view.state.values` maps a block id to a map from action id to a
leaf object whose single field depends on the element kind
(`selected_users`, `selected_user`, or `value`).  A leaf is modelled as an
inductive; reading the wrong field of a leaf is a `KeyError`, exactly as on
the Python dicts. -/

inductive FieldVal where
  | selected_users (us : List String)
  | selected_user (u : String)
  | value (v : String)
deriving Repr, DecidableEq

abbrev ValueGroups := List (String × List (String × FieldVal))

/-- Python `d[k]` on a dict modelled as an association list: first binding
wins, missing key raises `KeyError`. -/
def dictGet (k : String) : List (String × α) → Except Err α
  | [] => .error .keyError
  | (k₂, v) :: rest => if k₂ == k then .ok v else dictGet k rest

/-- Python `k in d` membership test. -/
def hasKey (k : String) (m : List (String × α)) : Bool :=
  m.any (fun p => p.1 == k)

/-- `values[b][a]["selected_users"]`. -/
def getSelectedUsers (values : ValueGroups) (b a : String) : Except Err (List String) := do
  let g ← dictGet b values
  let f ← dictGet a g
  match f with
  | .selected_users us => .ok us
  | _ => .error .keyError

/-- `values[b][a]["selected_user"]`. -/
def getSelectedUser (values : ValueGroups) (b a : String) : Except Err String := do
  let g ← dictGet b values
  let f ← dictGet a g
  match f with
  | .selected_user u => .ok u
  | _ => .error .keyError

/-- `values[b][a]["value"]`. -/
def getTextValue (values : ValueGroups) (b a : String) : Except Err String := do
  let g ← dictGet b values
  let f ← dictGet a g
  match f with
  | .value v => .ok v
  | _ => .error .keyError

/-! ## Python `int(str)`

`int()` strips ASCII whitespace, accepts one optional sign, then a nonempty
run of decimal digits in which a single underscore may stand between two
digits (Python 3.6 numeric-literal grammar).  Unicode digits are out of
scope: the values parsed here are Slack-produced ASCII ids. -/

def isPySpace (c : Char) : Bool :=
  c == ' ' || c == '\t' || c == '\n' || c == '\r' || c == '\x0b' || c == '\x0c'

/-- Digits after the first one: a digit, or an underscore followed by a
digit, extending the accumulator; anything else fails. -/
def digitsCore (acc : Nat) : List Char → Option Nat
  | [] => some acc
  | c :: cs =>
    if c.isDigit then digitsCore (acc * 10 + (c.toNat - 48)) cs
    else if c == '_' then
      match cs with
      | [] => none
      | d :: cs₂ =>
        if d.isDigit then digitsCore (acc * 10 + (d.toNat - 48)) cs₂ else none
    else none

/-- A nonempty digit run (with medial underscores); fails on empty input or
a leading non-digit. -/
def parseDigits : List Char → Option Nat
  | [] => none
  | c :: cs => if c.isDigit then digitsCore (c.toNat - 48) cs else none

def pyIntChars (cs : List Char) : Option Int :=
  let core := (cs.dropWhile isPySpace).reverse.dropWhile isPySpace |>.reverse
  match core with
  | '+' :: rest => (parseDigits rest).map Int.ofNat
  | '-' :: rest => (parseDigits rest).map (fun n => -(n : Int))
  | rest => (parseDigits rest).map Int.ofNat

/-- Python `int(s)`: `some n` on success, `none` when `int` would raise
`ValueError`. -/
def pyInt (s : String) : Option Int :=
  pyIntChars s.data

/-! ## FeedbackService (domain service)

`feedback/services.py` is not among the sources; the operations below are
modelled from spec section 4.1, keeping the shapes used at the call sites in
`services.py` of the slack platform. -/

namespace FeedbackService

/-- Modelled from the spec: `FeedbackService.get_user(user_id, team_id)`
"fails with NotFound if absent" (spec 4.1) — a plain lookup keyed on the
pair, no creation. -/
def get_user (user_id team_id : String) (s : Store) : Except Err User :=
  match s.users.find? (fun u => u.user_id == user_id && u.team_id == team_id) with
  | some u => .ok u
  | none => .error .notFound

/-- Modelled from the spec: `FeedbackService.get_or_create_user(team_id,
user_id)` is an "idempotent lookup-or-create keyed by the pair" (spec 4.1). -/
def get_or_create_user (team_id user_id : String) (s : Store) : User × Store :=
  match s.users.find? (fun u => u.team_id == team_id && u.user_id == user_id) with
  | some u => (u, s)
  | none =>
    let u : User := ⟨s.nextUserId, team_id, user_id⟩
    (u, { s with users := s.users ++ [u], nextUserId := s.nextUserId + 1 })

/-- Modelled from the spec: `FeedbackService.get_request(id)` "fails with
NotFound if absent" (spec 4.1).  The argument is the `Int` produced by
Python `int()` at the call sites. -/
def get_request (id : Int) (s : Store) : Except Err Request :=
  match s.requests.find? (fun r => (r.rid : Int) == id) with
  | some r => .ok r
  | none => .error .notFound

/-- Modelled from the spec: `FeedbackService.create_request(sender,
recipients)` "persists sender and recipient associations in one logical
transaction; returns the new Request with assigned identity" (spec 4.1). -/
def create_request (sender : User) (recipients : List User) (s : Store) :
    Request × Store :=
  let r : Request := ⟨s.nextRequestId, sender, recipients⟩
  (r, { s with requests := s.requests ++ [r], nextRequestId := s.nextRequestId + 1 })

/-- Modelled from the spec: `FeedbackService.create_feedback(author,
recipient, start_doing, continue_doing, stop_doing, request)` "persists one
Feedback row ... returns the new Feedback with assigned identity"
(spec 4.1). -/
def create_feedback (author recipient : User)
    (start_doing continue_doing stop_doing : String)
    (request : Option Request) (s : Store) : Feedback × Store :=
  let f : Feedback :=
    ⟨s.nextFeedbackId, author, recipient, request,
     start_doing, continue_doing, stop_doing⟩
  (f, { s with feedbacks := s.feedbacks ++ [f], nextFeedbackId := s.nextFeedbackId + 1 })

end FeedbackService

/-! ## Block Kit surfaces

Just enough of the Block Kit wrappers (`block_kit/…`, `surfaces.py`) to state
what `SlackService.give_feedback` builds: elements, blocks, and the modal
with its optional `callback_id`. -/

inductive Element where
  | multiUsersSelect (action_id placeholder : String)
  | usersSelect (action_id placeholder : String)
  | plainTextInput (action_id : String) (multiline : Bool)
  | button (action_id text style : String) (value : Option String)
deriving Repr, DecidableEq

inductive Block where
  | input (block_id label : String) (element : Element)
  | sect (text : String)
  | divider
  | actionsRow (elements : List Element)
deriving Repr, DecidableEq

structure Modal where
  title : String
  submit : String
  close : String
  blocks : List Block
  callback_id : Option String
deriving Repr, DecidableEq

/-- `SlackService.MODAL_TITLE`. -/
def MODAL_TITLE : String := "Start/Continue/Stop"

/-- The pure modal construction inside `SlackService.give_feedback`
(services.py lines 104 to 147): when a request is supplied the recipient
select is replaced by a section naming the sender of the request and the
`callback_id` of the modal is set to `str(request.id)`; otherwise the modal
keeps the `giveTo` users-select input and no `callback_id`. -/
def give_feedback_modal (request : Option Request) : Modal :=
  let to_block : Block :=
    match request with
    | none =>
      .input "giveTo" "Give feedback to:" (.usersSelect "actionTo" "Select user")
    | some r =>
      .sect ("You are giving feedback to <@" ++ r.sender.user_id ++ ">")
  { title := MODAL_TITLE
    submit := "Submit"
    close := "Close"
    blocks :=
      [to_block,
       .divider,
       .input "giveStart" "Start doing" (.plainTextInput "actionStart" true),
       .input "giveContinue" "Continue doing" (.plainTextInput "actionContinue" true),
       .input "giveStop" "Stop doing" (.plainTextInput "actionStop" true)]
    callback_id := request.map (fun r => toString r.rid) }

/-! ## Observable effects

Every outbound Slack Web API call and every `logger.error` call is recorded
as one trace entry.  The bot token recorded with an API call is the one
`_get_client` resolved for the team. -/

inductive Eff where
  /-- `logger.error(msg)`. -/
  | log (msg : String)
  /-- The `chat_postMessage` of `ask_feedback`: the ask message for
  `request`, posted to channel `channel`. -/
  | ask (bot_token : String) (request : Request) (channel : String)
  /-- The `chat_postMessage` of `send_feedback`: the feedback delivery
  message, posted to channel `channel`. -/
  | send (bot_token : String) (channel : String) (feedback : Feedback)
  /-- A `views_open` call with the given trigger id and modal. -/
  | openModal (bot_token trigger_id : String) (modal : Modal)
deriving Repr, DecidableEq

/-- `SlackService._get_client(team_id)`: `Team.objects.get(id=team_id)`
raises `DoesNotExist` when the team is not registered; on success the
client carries the stored bot token. -/
def get_client (teams : List Team) (team_id : String) : Except Err String :=
  match teams.find? (fun t => t.id == team_id) with
  | some t => .ok t.bot_token
  | none => .error .teamNotFound

/-- `SlackService.ask_feedback(request, user_id)` (services.py lines 72 to
102): resolves the client for the team of the sender of the request and
posts the ask message to channel `user_id`. -/
def ask_feedback (teams : List Team) (request : Request) (user_id : String) :
    Except Err Eff := do
  let tok ← get_client teams request.sender.team_id
  .ok (.ask tok request user_id)

/-- `SlackService.send_feedback(feedback)` (services.py lines 150 to 184):
resolves the client for the team of the author and posts the three text
sections to the channel of the recipient. -/
def send_feedback (teams : List Team) (feedback : Feedback) : Except Err Eff := do
  let tok ← get_client teams feedback.author.team_id
  .ok (.send tok feedback.recipient.user_id feedback)

/-- `SlackService.give_feedback(team_id, trigger_id, request=None)`
(services.py lines 104 to 148): builds the modal and opens it via
`views_open` on the client of `team_id`. -/
def give_feedback (teams : List Team) (team_id trigger_id : String)
    (request : Option Request) : Except Err Eff := do
  let tok ← get_client teams team_id
  .ok (.openModal tok trigger_id (give_feedback_modal request))

/-! ## Inbound payloads

`handle_interaction` dispatches on `payload["type"]`; the three payload
shapes it distinguishes are one constructor each, with the fields the
handlers read.  `other` carries any type string different from
"view_submission" and "block_actions". -/

/-- One entry of `payload["actions"]`: `action_id`, and the optional
`value` (the Ignore button carries none; reading it would be a
`KeyError`). -/
structure Action where
  action_id : String
  value : Option String
deriving Repr, DecidableEq

inductive Payload where
  /-- `type == "view_submission"`: carries `user.id`, `user.team_id`,
  `view.callback_id` and `view.state.values`. -/
  | view_submission (user_id user_team_id view_callback_id : String)
      (values : ValueGroups)
  /-- `type == "block_actions"`: carries `team.id`, `trigger_id` and the
  `actions` array. -/
  | block_actions (team_id trigger_id : String) (actions : List Action)
  /-- Any other `type` string. -/
  | other (ptype : String)
deriving Repr, DecidableEq

/-- `SlackService.handle_request_feedback(payload)` (services.py lines 210
to 222): resolve sender, resolve every selected recipient, create the
request, then send one ask message per recipient. -/
def handle_request_feedback (user_id user_team_id : String)
    (values : ValueGroups) (teams : List Team) (s : Store) :
    Except Err (Store × List Eff) := do
  let sender ← FeedbackService.get_user user_id user_team_id s
  let selected ← getSelectedUsers values "requestFrom" "actionFrom"
  let recipients ← selected.mapM (fun u => FeedbackService.get_user u user_team_id s)
  let (request, s₁) := FeedbackService.create_request sender recipients s
  let effs ← recipients.mapM (fun r => ask_feedback teams request r.user_id)
  .ok (s₁, effs)

/-- `SlackService.handle_give_feedback(payload)` (services.py lines 224 to
249): resolve the author; if the values carry the `giveTo` group the
feedback is unsolicited (`request = None`, recipient is the selected user),
otherwise the request referenced by `int(view.callback_id)` is resolved and
its sender is the recipient; create the feedback and send it. -/
def handle_give_feedback (user_id user_team_id view_callback_id : String)
    (values : ValueGroups) (teams : List Team) (s : Store) :
    Except Err (Store × List Eff) := do
  let author ← FeedbackService.get_user user_id user_team_id s
  let (request, recipient) ←
    if hasKey "giveTo" values then do
      let sel ← getSelectedUser values "giveTo" "actionTo"
      let r ← FeedbackService.get_user sel user_team_id s
      Except.ok ((none : Option Request), r)
    else do
      let n ← match pyInt view_callback_id with
              | some n => Except.ok n
              | none => Except.error Err.valueError
      let req ← FeedbackService.get_request n s
      Except.ok (some req, req.sender)
  let sd ← getTextValue values "giveStart" "actionStart"
  let cd ← getTextValue values "giveContinue" "actionContinue"
  let st ← getTextValue values "giveStop" "actionStop"
  let (feedback, s₁) :=
    FeedbackService.create_feedback author recipient sd cd st request s
  let eff ← send_feedback teams feedback
  .ok (s₁, [eff])

/-- The `for action in payload["actions"]` loop of `handle_interaction`
(services.py lines 198 to 206): a "give" action parses its value with
`int()`, resolves the request and opens the give modal; any other action id
is logged as unhandled.  An exception aborts the loop. -/
def handle_actions (teams : List Team) (s : Store) (team_id trigger_id : String) :
    List Action → Except Err (List Eff)
  | [] => .ok []
  | a :: rest =>
    if a.action_id == "give" then do
      let v ← match a.value with
              | some v => Except.ok v
              | none => Except.error Err.keyError
      let n ← match pyInt v with
              | some n => Except.ok n
              | none => Except.error Err.valueError
      let request ← FeedbackService.get_request n s
      let eff ← give_feedback teams team_id trigger_id (some request)
      let more ← handle_actions teams s team_id trigger_id rest
      .ok (eff :: more)
    else do
      let more ← handle_actions teams s team_id trigger_id rest
      .ok (.log ("Unhandled action received: " ++ a.action_id) :: more)

/-- `SlackService.handle_interaction(payload)` (services.py lines 186 to
208): top-level dispatch on the payload type; submissions route on which
value group is present, block actions iterate the actions array, anything
else is logged. -/
def handle_interaction (teams : List Team) (s : Store) :
    Payload → Except Err (Store × List Eff)
  | .view_submission user_id user_team_id view_callback_id values =>
    if hasKey "requestFrom" values then
      handle_request_feedback user_id user_team_id values teams s
    else if hasKey "giveStart" values then
      handle_give_feedback user_id user_team_id view_callback_id values teams s
    else
      .ok (s, [.log "Unhandled submission received"])
  | .block_actions team_id trigger_id actions => do
    let effs ← handle_actions teams s team_id trigger_id actions
    .ok (s, effs)
  | .other ptype =>
    .ok (s, [.log ("Unhandled payload received: " ++ ptype)])

/-! ## OAuth registration -/

/-- The JSON structure returned by `SlackOAuthService.get_access_token`:
the fields `register_team` reads. -/
structure OAuthResponse where
  ok : Bool
  team_id : String
  team_name : String
  access_token : String
deriving Repr, DecidableEq

/-- `SlackService.register_team(authorization_code)` (services.py lines 36
to 48), with the exchange response as input (the HTTP exchange itself is an
external collaborator).  On a failed exchange it raises
`NotImplementedError` before any store access; otherwise
`Team.objects.get_or_create` keyed on the id, with name and bot token as
defaults: fetch by id, and only on absence create a row from the
defaults. -/
def register_team (resp : OAuthResponse) (teams : List Team) :
    Except Err (Team × List Team) :=
  if !resp.ok then .error .notImplemented
  else
    match teams.find? (fun t => t.id == resp.team_id) with
    | some t => .ok (t, teams)
    | none =>
      let t : Team := ⟨resp.team_id, resp.team_name, resp.access_token⟩
      .ok (t, teams ++ [t])

/-! ## Concrete fixtures used by the witness theorems -/

def demoTeams : List Team := [⟨"T1", "Acme", "xoxb-1"⟩]

def demoU1 : User := ⟨0, "T1", "U1"⟩

def demoU2 : User := ⟨1, "T1", "U2"⟩

def demoReq : Request := ⟨42, demoU1, [demoU2]⟩

def demoStore : Store :=
  { users := [demoU1, demoU2], requests := [demoReq], feedbacks := [],
    nextUserId := 2, nextRequestId := 43, nextFeedbackId := 0 }

/-- Submission values carrying both the `requestFrom` group and a
`giveStart` group. -/
def valsBoth : ValueGroups :=
  [("requestFrom", [("actionFrom", .selected_users ["U2"])]),
   ("giveStart", [("actionStart", .value "X")])]

/-- Submission values of a give-feedback modal opened from a request: the
three text groups and no `giveTo` group. -/
def valsSolicited : ValueGroups :=
  [("giveStart", [("actionStart", .value "X")]),
   ("giveContinue", [("actionContinue", .value "Y")]),
   ("giveStop", [("actionStop", .value "Z")])]

/-- Submission values of an unsolicited give-feedback modal: the `giveTo`
group and the three text groups. -/
def valsUnsolicited : ValueGroups :=
  [("giveTo", [("actionTo", .selected_user "U1")]),
   ("giveStart", [("actionStart", .value "X")]),
   ("giveContinue", [("actionContinue", .value "Y")]),
   ("giveStop", [("actionStop", .value "Z")])]

/-! ## Claim theorems -/

@[simp]
theorem except_bind_ok (a : α) (f : α → Except Err β) :
    (Except.ok a >>= f) = f a := rfl

@[simp]
theorem except_bind_error (e : Err) (f : α → Except Err β) :
    ((Except.error e : Except Err α) >>= f) = Except.error e := rfl

/-- Claim C1: a `view_submission` payload is routed to the request-feedback
path exactly when the submitted values contain the key `requestFrom`
(whatever other keys are present); to the give-feedback path exactly when
they contain `giveStart` and not `requestFrom`; and otherwise only a log
entry is produced, the store is unchanged and no domain call happens. -/
theorem handle_interaction_submission_dispatch :
    ∀ (uid utid cb : String) (values : ValueGroups) (teams : List Team) (s : Store),
    (hasKey "requestFrom" values = true →
      handle_interaction teams s (.view_submission uid utid cb values) =
        handle_request_feedback uid utid values teams s) ∧
    (hasKey "requestFrom" values = false → hasKey "giveStart" values = true →
      handle_interaction teams s (.view_submission uid utid cb values) =
        handle_give_feedback uid utid cb values teams s) ∧
    (hasKey "requestFrom" values = false → hasKey "giveStart" values = false →
      handle_interaction teams s (.view_submission uid utid cb values) =
        .ok (s, [Eff.log "Unhandled submission received"])) := by
  intro uid utid cb values teams s
  refine ⟨fun h₁ => by simp [handle_interaction, h₁],
          fun h₁ h₂ => by simp [handle_interaction, h₁, h₂],
          fun h₁ h₂ => by simp [handle_interaction, h₁, h₂]⟩

/-- Witness for C1: each of the three dispatch cases at a concrete
payload. -/
theorem handle_interaction_submission_dispatch_witness :
    handle_interaction demoTeams demoStore (.view_submission "U1" "T1" "" valsBoth) =
      handle_request_feedback "U1" "T1" valsBoth demoTeams demoStore ∧
    handle_interaction demoTeams demoStore (.view_submission "U2" "T1" "42" valsSolicited) =
      handle_give_feedback "U2" "T1" "42" valsSolicited demoTeams demoStore ∧
    handle_interaction demoTeams demoStore (.view_submission "U1" "T1" "" []) =
      .ok (demoStore, [Eff.log "Unhandled submission received"]) :=
  ⟨(handle_interaction_submission_dispatch "U1" "T1" "" valsBoth demoTeams demoStore).1 rfl,
   (handle_interaction_submission_dispatch "U2" "T1" "42" valsSolicited demoTeams demoStore).2.1 rfl rfl,
   (handle_interaction_submission_dispatch "U1" "T1" "" [] demoTeams demoStore).2.2 rfl rfl⟩

/-- A block with a users-select element (the free recipient selector). -/
def isUsersSelectInput : Block → Bool
  | .input _ _ (.usersSelect _ _) => true
  | _ => false

/-- The three required multiline text inputs of the give-feedback modal. -/
def hasGiveTextInputs (m : Modal) : Prop :=
  Block.input "giveStart" "Start doing" (Element.plainTextInput "actionStart" true) ∈ m.blocks ∧
  Block.input "giveContinue" "Continue doing" (Element.plainTextInput "actionContinue" true) ∈ m.blocks ∧
  Block.input "giveStop" "Stop doing" (Element.plainTextInput "actionStop" true) ∈ m.blocks

/-- Claim C6: with a request the built modal has no user-select input but a
read-only section naming the sender of the request, and its callback id is
the string form of the request id; without a request it has the `giveTo`
user-select input and no callback id; in both cases it carries the three
required multiline text inputs. -/
theorem give_feedback_modal_shape :
    (∀ r : Request,
      (give_feedback_modal (some r)).callback_id = some (toString r.rid) ∧
      (∀ b ∈ (give_feedback_modal (some r)).blocks, isUsersSelectInput b = false) ∧
      Block.sect ("You are giving feedback to <@" ++ r.sender.user_id ++ ">")
        ∈ (give_feedback_modal (some r)).blocks ∧
      hasGiveTextInputs (give_feedback_modal (some r))) ∧
    ((give_feedback_modal none).callback_id = none ∧
      Block.input "giveTo" "Give feedback to:" (Element.usersSelect "actionTo" "Select user")
        ∈ (give_feedback_modal none).blocks ∧
      hasGiveTextInputs (give_feedback_modal none)) := by
  refine ⟨fun r => ⟨rfl, ?_, ?_, ?_⟩, rfl, ?_, ?_⟩ <;>
    simp [give_feedback_modal, isUsersSelectInput, hasGiveTextInputs]

/-- The unhandled-action branch of the actions loop: when no action id
matches "give", the loop produces exactly one log entry per action and
nothing else. -/
theorem handle_actions_unhandled (teams : List Team) (s : Store)
    (team_id trigger_id : String) :
    ∀ actions : List Action, (∀ a ∈ actions, a.action_id ≠ "give") →
    handle_actions teams s team_id trigger_id actions =
      .ok (actions.map (fun a => Eff.log ("Unhandled action received: " ++ a.action_id)))
  | [], _ => rfl
  | a :: rest, h => by
    have ha : (a.action_id == "give") = false :=
      beq_eq_false_iff_ne.mpr (h a (List.mem_cons_self a rest))
    have ih := handle_actions_unhandled teams s team_id trigger_id rest
      (fun b hb => h b (List.mem_cons_of_mem a hb))
    simp [handle_actions, ha, ih]

/-- Claim C8: a `block_actions` payload whose action ids are all different
from "give" (such as the Ignore button) produces no domain-service call and
no outbound chat call: the handler returns without raising, the store is
unchanged, and the trace holds exactly one unhandled-action log entry per
action. -/
theorem handle_interaction_unrecognized_actions
    (team_id trigger_id : String) (actions : List Action)
    (teams : List Team) (s : Store)
    (h : ∀ a ∈ actions, a.action_id ≠ "give") :
    handle_interaction teams s (.block_actions team_id trigger_id actions) =
      .ok (s, actions.map (fun a => Eff.log ("Unhandled action received: " ++ a.action_id))) := by
  simp [handle_interaction, handle_actions_unhandled teams s team_id trigger_id actions h]

/-- Witness for C8: the Ignore button at a concrete payload. -/
theorem handle_interaction_unrecognized_actions_witness :
    handle_interaction demoTeams demoStore
        (.block_actions "T1" "tr" [⟨"ignore", none⟩]) =
      .ok (demoStore, [Eff.log "Unhandled action received: ignore"]) :=
  handle_interaction_unrecognized_actions "T1" "tr" [⟨"ignore", none⟩]
    demoTeams demoStore (by decide)

/-- Claim C9: a "give" action parses its value with Python `int()`; when
the value is not parseable as an integer the handler raises the
`ValueError` instead of logging and dropping the event. -/
theorem handle_interaction_give_action_parse
    (team_id trigger_id v : String) (teams : List Team) (s : Store)
    (h : pyInt v = none) :
    handle_interaction teams s (.block_actions team_id trigger_id [⟨"give", some v⟩]) =
      .error .valueError := by
  simp [handle_interaction, handle_actions, h]

/-- Witness for C9: the non-numeric value "abc". -/
theorem handle_interaction_give_action_parse_witness :
    handle_interaction demoTeams demoStore
        (.block_actions "T1" "tr" [⟨"give", some "abc"⟩]) =
      .error .valueError :=
  handle_interaction_give_action_parse "T1" "tr" "abc" demoTeams demoStore rfl

/-- Claim C5: a `block_actions` payload with a "give" action of value "42"
makes the handler look up the Request with id 42 and invoke the
give-feedback modal builder with that resolved request, the team id of the
payload and the trigger id of the payload. -/
theorem handle_interaction_give_action
    (team_id trigger_id : String) (teams : List Team) (s : Store)
    (req : Request) (tok : String)
    (hreq : FeedbackService.get_request 42 s = .ok req)
    (htok : get_client teams team_id = .ok tok) :
    handle_interaction teams s (.block_actions team_id trigger_id [⟨"give", some "42"⟩]) =
      .ok (s, [Eff.openModal tok trigger_id (give_feedback_modal (some req))]) := by
  have hp : pyInt "42" = some 42 := rfl
  simp [handle_interaction, handle_actions, hp, hreq, give_feedback, htok]

/-- Witness for C5: request 42 of the demo store. -/
theorem handle_interaction_give_action_witness :
    handle_interaction demoTeams demoStore
        (.block_actions "T1" "tr" [⟨"give", some "42"⟩]) =
      .ok (demoStore, [Eff.openModal "xoxb-1" "tr" (give_feedback_modal (some demoReq))]) :=
  handle_interaction_give_action "T1" "tr" demoTeams demoStore demoReq "xoxb-1" rfl rfl

/-- Claim C2: on a give-feedback submission, when the values carry the
`giveTo` input group the request is none and the recipient is the selected
user; otherwise the Request referenced by the callback id of the view is
resolved and the recipient is the sender of that request; in both cases
`create_feedback` persists the three submitted texts with that request and
the `send_feedback` message goes to the channel of the recipient. -/
theorem handle_give_feedback_paths :
    ∀ (uid utid cb : String) (values : ValueGroups) (teams : List Team)
      (s : Store) (author : User) (sd cd st : String),
    FeedbackService.get_user uid utid s = .ok author →
    getTextValue values "giveStart" "actionStart" = .ok sd →
    getTextValue values "giveContinue" "actionContinue" = .ok cd →
    getTextValue values "giveStop" "actionStop" = .ok st →
    ((∀ (sel : String) (rcpt : User) (tok : String),
        hasKey "giveTo" values = true →
        getSelectedUser values "giveTo" "actionTo" = .ok sel →
        FeedbackService.get_user sel utid s = .ok rcpt →
        get_client teams author.team_id = .ok tok →
        handle_give_feedback uid utid cb values teams s =
          .ok ({ s with
                  feedbacks := s.feedbacks ++
                    [⟨s.nextFeedbackId, author, rcpt, none, sd, cd, st⟩],
                  nextFeedbackId := s.nextFeedbackId + 1 },
               [Eff.send tok rcpt.user_id
                  ⟨s.nextFeedbackId, author, rcpt, none, sd, cd, st⟩])) ∧
     (∀ (n : Int) (req : Request) (tok : String),
        hasKey "giveTo" values = false →
        pyInt cb = some n →
        FeedbackService.get_request n s = .ok req →
        get_client teams author.team_id = .ok tok →
        handle_give_feedback uid utid cb values teams s =
          .ok ({ s with
                  feedbacks := s.feedbacks ++
                    [⟨s.nextFeedbackId, author, req.sender, some req, sd, cd, st⟩],
                  nextFeedbackId := s.nextFeedbackId + 1 },
               [Eff.send tok req.sender.user_id
                  ⟨s.nextFeedbackId, author, req.sender, some req, sd, cd, st⟩]))) := by
  intro uid utid cb values teams s author sd cd st ha h₁ h₂ h₃
  constructor
  · intro sel rcpt tok hk hsel hrcpt htok
    simp [handle_give_feedback, ha, h₁, h₂, h₃, hk, hsel, hrcpt,
          FeedbackService.create_feedback, send_feedback, htok]
  · intro n req tok hk hcb hreq htok
    simp [handle_give_feedback, ha, h₁, h₂, h₃, hk, hcb, hreq,
          FeedbackService.create_feedback, send_feedback, htok]

/-- Witness for C2: both paths at concrete submissions over the demo
store — the unsolicited path (selected user U1, no request) and the
solicited path (callback id 42, recipient the sender of request 42). -/
theorem handle_give_feedback_paths_witness :
    handle_give_feedback "U2" "T1" "" valsUnsolicited demoTeams demoStore =
      .ok ({ demoStore with
              feedbacks := [⟨0, demoU2, demoU1, none, "X", "Y", "Z"⟩],
              nextFeedbackId := 1 },
           [Eff.send "xoxb-1" "U1" ⟨0, demoU2, demoU1, none, "X", "Y", "Z"⟩]) ∧
    handle_give_feedback "U2" "T1" "42" valsSolicited demoTeams demoStore =
      .ok ({ demoStore with
              feedbacks := [⟨0, demoU2, demoU1, some demoReq, "X", "Y", "Z"⟩],
              nextFeedbackId := 1 },
           [Eff.send "xoxb-1" "U1" ⟨0, demoU2, demoU1, some demoReq, "X", "Y", "Z"⟩]) :=
  ⟨(handle_give_feedback_paths "U2" "T1" "" valsUnsolicited demoTeams demoStore
      demoU2 "X" "Y" "Z" rfl rfl rfl rfl).1 "U1" demoU1 "xoxb-1" rfl rfl rfl rfl,
   (handle_give_feedback_paths "U2" "T1" "42" valsSolicited demoTeams demoStore
      demoU2 "X" "Y" "Z" rfl rfl rfl rfl).2 42 demoReq "xoxb-1" rfl rfl rfl rfl⟩

/-- Counterexample to claim C3 as stated: the request-feedback handler
resolves users through `FeedbackService.get_user` — per spec 4.1 a plain
lookup that fails with NotFound when the pair is absent — not through
`get_or_create_user`.  On an empty store a well-formed submission makes the
handler raise NotFound instead of creating the users, creating the request
and sending the asks. -/
theorem handle_request_feedback_notfound_cex :
    handle_request_feedback "U1" "T1"
      [("requestFrom", [("actionFrom", FieldVal.selected_users ["U2"])])]
      [] emptyStore = .error Err.notFound := rfl

/-- When the team of the sender resolves, the ask loop posts exactly one
ask message per recipient, in recipient order. -/
theorem mapM_ask_feedback (teams : List Team) (req : Request) (tok : String)
    (h : get_client teams req.sender.team_id = .ok tok) :
    ∀ rs : List User,
    rs.mapM (fun r => ask_feedback teams req r.user_id) =
      .ok (rs.map (fun r => Eff.ask tok req r.user_id))
  | [] => rfl
  | r :: rest => by
    have ih := mapM_ask_feedback teams req tok h rest
    have ha : ask_feedback teams req r.user_id = .ok (Eff.ask tok req r.user_id) := by
      simp [ask_feedback, h]
    rw [List.mapM_cons, ih, ha]
    rfl

/-- Claim C3 as amended: the request-feedback handler resolves the sender
and each selected recipient via `get_user` keyed on the team and user ids
of the payload — a plain lookup, so NotFound is possible; whenever every
resolution succeeds it calls `create_request(sender, recipients)` and then
sends exactly one ask_feedback message per recipient. -/
theorem handle_request_feedback_resolved
    (uid utid : String) (values : ValueGroups) (teams : List Team) (s : Store)
    (sender : User) (selected : List String) (recipients : List User) (tok : String)
    (hs : FeedbackService.get_user uid utid s = .ok sender)
    (hsel : getSelectedUsers values "requestFrom" "actionFrom" = .ok selected)
    (hrs : selected.mapM (fun u => FeedbackService.get_user u utid s) = .ok recipients)
    (htok : get_client teams sender.team_id = .ok tok) :
    handle_request_feedback uid utid values teams s =
      .ok ({ s with
              requests := s.requests ++ [⟨s.nextRequestId, sender, recipients⟩],
              nextRequestId := s.nextRequestId + 1 },
           recipients.map
             (fun r => Eff.ask tok ⟨s.nextRequestId, sender, recipients⟩ r.user_id)) := by
  have hasks :=
    mapM_ask_feedback teams ⟨s.nextRequestId, sender, recipients⟩ tok htok recipients
  simp only [handle_request_feedback, hs, hsel, hrs, except_bind_ok,
    FeedbackService.create_request, hasks]

/-- Witness for the amended C3: a submission over the demo store, where
both users exist; one request is created and one ask goes out to the single
recipient. -/
theorem handle_request_feedback_resolved_witness :
    handle_request_feedback "U1" "T1" valsBoth demoTeams demoStore =
      .ok ({ demoStore with
              requests := [demoReq, ⟨43, demoU1, [demoU2]⟩],
              nextRequestId := 44 },
           [Eff.ask "xoxb-1" ⟨43, demoU1, [demoU2]⟩ "U2"]) :=
  handle_request_feedback_resolved "U1" "T1" valsBoth demoTeams demoStore
    demoU1 ["U2"] [demoU2] "xoxb-1" rfl rfl (by rfl) rfl

/-! ## Identity-store invariant (claim C4) -/

/-- No two User rows share the same (team_id, user_id) pair. -/
def pairUnique (l : List User) : Prop :=
  l.Pairwise (fun u v => ¬(u.team_id = v.team_id ∧ u.user_id = v.user_id))

/-- The store states reachable through the domain-service operations,
starting from the empty store (spec section 6: persisted entities are
exposed only via the lookup/create operations of the domain service; the
lookups do not change the store). -/
inductive Reachable : Store → Prop where
  | empty : Reachable emptyStore
  | goc (team_id user_id : String) {s : Store} : Reachable s →
      Reachable (FeedbackService.get_or_create_user team_id user_id s).2
  | creq (sender : User) (recipients : List User) {s : Store} : Reachable s →
      Reachable (FeedbackService.create_request sender recipients s).2
  | cfb (author recipient : User) (sd cd st : String) (req : Option Request)
      {s : Store} : Reachable s →
      Reachable (FeedbackService.create_feedback author recipient sd cd st req s).2

/-- Idempotence of `get_or_create_user` at one store: the second call with
the same pair returns the same identity and the same store, and the pair of
calls creates exactly one row when the pair was absent and none when it was
present. -/
def gocIdem (team_id user_id : String) (s : Store) : Prop :=
  let r₁ := FeedbackService.get_or_create_user team_id user_id s
  let r₂ := FeedbackService.get_or_create_user team_id user_id r₁.2
  r₂.1 = r₁.1 ∧ r₂.2 = r₁.2 ∧
  r₁.2.users.length =
    (match s.users.find? (fun u => u.team_id == team_id && u.user_id == user_id) with
     | some _ => s.users.length
     | none => s.users.length + 1) ∧
  (match s.users.find? (fun u => u.team_id == team_id && u.user_id == user_id) with
   | some u => r₁.2 = s ∧ r₁.1 = u
   | none => r₁.1 = ⟨s.nextUserId, team_id, user_id⟩)

/-- Helper for C4: `gocIdem` holds at every store. -/
theorem gocIdem_all (team_id user_id : String) (s : Store) :
    gocIdem team_id user_id s := by
  unfold gocIdem FeedbackService.get_or_create_user
  cases hfind : s.users.find? (fun u => u.team_id == team_id && u.user_id == user_id) with
  | some u => simp [hfind]
  | none =>
    have hnew : (s.users ++ [(⟨s.nextUserId, team_id, user_id⟩ : User)]).find?
        (fun u => u.team_id == team_id && u.user_id == user_id) =
        some ⟨s.nextUserId, team_id, user_id⟩ := by
      simp [List.find?_append, hfind]
    simp [hfind, hnew]

/-- Claim C4: in every reachable store state no two User rows share the
same (team_id, user_id) pair, and `get_or_create_user` called twice with
the same pair returns the same identity while creating exactly one row. -/
theorem identity_store_pair_unique :
    ∀ s : Store, Reachable s →
      pairUnique s.users ∧ ∀ team_id user_id : String, gocIdem team_id user_id s := by
  intro s hr
  refine ⟨?_, fun team_id user_id => gocIdem_all team_id user_id s⟩
  induction hr with
  | empty => simp [pairUnique, emptyStore]
  | goc tid uid hr ih =>
    rename_i s'
    unfold FeedbackService.get_or_create_user
    cases hfind : s'.users.find? (fun u => u.team_id == tid && u.user_id == uid) with
    | some u => simpa using ih
    | none =>
      have hnone := List.find?_eq_none.mp hfind
      simp only [pairUnique, List.pairwise_append]
      refine ⟨ih, by simp, ?_⟩
      intro a ha b hb
      simp only [List.mem_singleton] at hb
      subst hb
      intro hab
      have := hnone a ha
      simp only [Bool.and_eq_true, beq_iff_eq] at this
      exact this ⟨hab.1, hab.2⟩
  | creq sender recipients hr ih => simpa [FeedbackService.create_request] using ih
  | cfb author recipient sd cd st req hr ih =>
    simpa [FeedbackService.create_feedback] using ih

/-- A store built by two `get_or_create_user` calls from the empty store. -/
def reachStore : Store :=
  (FeedbackService.get_or_create_user "T1" "U2"
    (FeedbackService.get_or_create_user "T1" "U1" emptyStore).2).2

/-- Witness for C4: the reachable two-user store. -/
theorem identity_store_pair_unique_witness :
    pairUnique reachStore.users ∧ gocIdem "T1" "U1" reachStore :=
  have h : Reachable reachStore :=
    Reachable.goc "T1" "U2" (Reachable.goc "T1" "U1" Reachable.empty)
  ⟨(identity_store_pair_unique reachStore h).1,
   (identity_store_pair_unique reachStore h).2 "T1" "U1"⟩

/-! ## OAuth registration (claims C7 and C10) -/

/-- Claim C7: `register_team` raises on a failed exchange without touching
the Team store; on a successful exchange it creates-or-fetches the Team
record keyed by the platform-assigned team id, storing name and bot token
on creation, and a repeated registration of the same team id returns the
same record and leaves the table unchanged — no duplicate Team rows. -/
theorem register_team_spec :
    ∀ (resp : OAuthResponse) (teams : List Team),
    (resp.ok = false → register_team resp teams = .error .notImplemented) ∧
    (resp.ok = true →
      (teams.find? (fun t => t.id == resp.team_id) = none →
        register_team resp teams =
          .ok (⟨resp.team_id, resp.team_name, resp.access_token⟩,
               teams ++ [⟨resp.team_id, resp.team_name, resp.access_token⟩])) ∧
      (∀ (t : Team) (teams₂ : List Team),
        register_team resp teams = .ok (t, teams₂) →
        ∀ resp₂ : OAuthResponse, resp₂.ok = true → resp₂.team_id = resp.team_id →
          register_team resp₂ teams₂ = .ok (t, teams₂))) := by
  intro resp teams
  refine ⟨fun h => by simp [register_team, h], fun hok => ⟨fun hfind => ?_, ?_⟩⟩
  · simp [register_team, hok, hfind]
  · intro t teams₂ hreg resp₂ hok₂ hid
    simp only [register_team, hok, Bool.not_true, Bool.false_eq_true,
      if_false] at hreg
    cases hfind : teams.find? (fun x => x.id == resp.team_id) with
    | some t₀ =>
      rw [hfind] at hreg
      simp only [Except.ok.injEq, Prod.mk.injEq] at hreg
      obtain ⟨ht, hts⟩ := hreg
      subst ht; subst hts
      simp [register_team, hok₂, hid, hfind]
    | none =>
      rw [hfind] at hreg
      simp only [Except.ok.injEq, Prod.mk.injEq] at hreg
      obtain ⟨ht, hts⟩ := hreg
      subst ht; subst hts
      simp [register_team, hok₂, hid, List.find?_append, hfind]

/-- Witness for C7: a failed exchange for team T2, a first successful
registration of T2, and a repeated registration of T2 returning the same
record and table. -/
theorem register_team_spec_witness :
    register_team ⟨false, "T2", "Beta", "xoxb-2"⟩ demoTeams = .error .notImplemented ∧
    register_team ⟨true, "T2", "Beta", "xoxb-2"⟩ demoTeams =
      .ok (⟨"T2", "Beta", "xoxb-2"⟩, demoTeams ++ [⟨"T2", "Beta", "xoxb-2"⟩]) ∧
    register_team ⟨true, "T2", "Beta", "xoxb-3"⟩ (demoTeams ++ [⟨"T2", "Beta", "xoxb-2"⟩]) =
      .ok (⟨"T2", "Beta", "xoxb-2"⟩, demoTeams ++ [⟨"T2", "Beta", "xoxb-2"⟩]) :=
  ⟨(register_team_spec ⟨false, "T2", "Beta", "xoxb-2"⟩ demoTeams).1 rfl,
   ((register_team_spec ⟨true, "T2", "Beta", "xoxb-2"⟩ demoTeams).2 rfl).1 rfl,
   ((register_team_spec ⟨true, "T2", "Beta", "xoxb-2"⟩ demoTeams).2 rfl).2
     ⟨"T2", "Beta", "xoxb-2"⟩ (demoTeams ++ [⟨"T2", "Beta", "xoxb-2"⟩])
     (((register_team_spec ⟨true, "T2", "Beta", "xoxb-2"⟩ demoTeams).2 rfl).1 rfl)
     ⟨true, "T2", "Beta", "xoxb-3"⟩ rfl rfl⟩

/-- Claim C10: when the Team record already exists, `register_team` returns
it and leaves the table unchanged — the name and bot token of the fresh
exchange response are applied only on creation. -/
theorem register_team_existing_unchanged
    (resp : OAuthResponse) (teams : List Team) (t : Team)
    (hok : resp.ok = true)
    (hfind : teams.find? (fun x => x.id == resp.team_id) = some t) :
    register_team resp teams = .ok (t, teams) := by
  simp [register_team, hok, hfind]

/-- Witness for C10: re-registering T1 with a fresh exchange response
carrying a different name and token returns the previously stored record
and token. -/
theorem register_team_existing_unchanged_witness :
    register_team ⟨true, "T1", "NewName", "xoxb-new"⟩ demoTeams =
      .ok (⟨"T1", "Acme", "xoxb-1"⟩, demoTeams) :=
  register_team_existing_unchanged ⟨true, "T1", "NewName", "xoxb-new"⟩
    demoTeams ⟨"T1", "Acme", "xoxb-1"⟩ rfl rfl

end Scs
